import Mathlib

/-!
Verification of the face-detection annotation app (`src/App.vue`) against its
natural-language specification.  The Vue component is shallowly embedded:

* `getCenter` and `drawLabel` are translated directly from the source methods;
* one tick of `detectFaces` is modelled as a pure function of a `TickInput`
  that records the ambient state read by the tick (whether `this.model` is
  set, the current backend string) and the outcomes of the effectful calls
  (`estimateFaces` as an `Except`, and an oracle saying which canvas call, if
  any, throws);
* the canvas 2D context is modelled as a list of issued `DrawOp` commands,
  with `applySurface` giving their effect on the visible surface;
* `mounted` is modelled as a pure function of a `MountedEnv` that records the
  outcomes of each initialization step (backend switches, `tf.ready`,
  `createDetector`, `getUserMedia`).

Coordinates are rationals, so centroid arithmetic is exact.
-/

namespace FaceApp

/-- A landmark point as the source indexes it: `p[0]` is x, `p[1]` is y. -/
abbrev Point := ℚ × ℚ

/-- The `{x, y}` object returned by `getCenter`. -/
structure Center where
  x : ℚ
  y : ℚ
  deriving DecidableEq

/-- `getCenter(points)` from `App.vue` lines 132-140: `(0,0)` when `points` is
null/undefined (`none`) or empty, otherwise the running-sum average computed by
the `forEach` loop. -/
def getCenter (points : Option (List Point)) : Center :=
  match points with
  | none => ⟨0, 0⟩
  | some ps =>
    if ps.length = 0 then ⟨0, 0⟩
    else
      let sumX := ps.foldl (fun s p => s + p.1) 0
      let sumY := ps.foldl (fun s p => s + p.2) 0
      ⟨sumX / (ps.length : ℚ), sumY / (ps.length : ℚ)⟩

/-- One immediate-mode call issued to the 2D context.  `arcFull x y r` stands
for `arc(x, y, r, 0, 2 * Math.PI)` (the angle arguments are the fixed
full-circle constants in the source and carry no information). -/
inductive DrawOp where
  | clearRect (x y w h : ℚ)
  | beginPath
  | arcFull (x y r : ℚ)
  | setFillStyle (c : String)
  | fill
  | setFont (f : String)
  | fillText (label : String) (x y : ℚ)
  deriving DecidableEq

/-- The named landmark groups read off `prediction.annotations` by the source
(each may be absent, which `getCenter` must tolerate). -/
structure Annots where
  leftEyeUpper0 : Option (List Point)
  rightEyeUpper0 : Option (List Point)
  noseBottom : Option (List Point)
  lipsUpperOuter : Option (List Point)

/-- One element of the sequence returned by `estimateFaces`. -/
structure Prediction where
  keypoints : List Point
  annots : Annots

/-- `drawLabel(x, y, label)` from `App.vue` lines 141-145: set font, set fill
style, draw the text. -/
def drawLabel (x y : ℚ) (label : String) : List DrawOp :=
  [DrawOp.setFont "14px Arial", DrawOp.setFillStyle "blue", DrawOp.fillText label x y]

/-- The marker for one keypoint (`App.vue` lines 99-104): `beginPath`, a
radius-2 full arc at the point, red fill style, `fill`. -/
def drawKeypoint (p : Point) : List DrawOp :=
  [DrawOp.beginPath, DrawOp.arcFull p.1 p.2 2, DrawOp.setFillStyle "red", DrawOp.fill]

/-- The drawing calls issued for one prediction (`App.vue` lines 94-122):
all keypoint markers, then the four feature labels at the group centroids with
the source's vertical offsets. -/
def renderPrediction (pred : Prediction) : List DrawOp :=
  pred.keypoints.flatMap drawKeypoint
    ++ drawLabel (getCenter pred.annots.leftEyeUpper0).x
        ((getCenter pred.annots.leftEyeUpper0).y - 20) "Left Eye"
    ++ drawLabel (getCenter pred.annots.rightEyeUpper0).x
        ((getCenter pred.annots.rightEyeUpper0).y - 20) "Right Eye"
    ++ drawLabel (getCenter pred.annots.noseBottom).x
        ((getCenter pred.annots.noseBottom).y + 10) "Nose"
    ++ drawLabel (getCenter pred.annots.lipsUpperOuter).x
        ((getCenter pred.annots.lipsUpperOuter).y + 20) "Mouth"

/-- The predictions the renderer iterates over: the source guards the
`forEach` with `if (predictions.length > 0)` (`App.vue` line 93). -/
def processedPreds (preds : List Prediction) : List Prediction :=
  if preds.length > 0 then preds else []

/-- All drawing calls of one successful tick (`App.vue` lines 91-123):
`clearRect(0, 0, canvas.width, canvas.height)` first, then the per-prediction
rendering. -/
def tickDrawOps (w h : ℚ) (preds : List Prediction) : List DrawOp :=
  DrawOp.clearRect 0 0 w h :: (processedPreds preds).flatMap renderPrediction

/-- Ambient state and effect outcomes for one `detectFaces` tick:
`modelLoaded` is whether `this.model` is non-null, `backend` is the value of
`tf.getBackend()`, `estimate` the outcome of `estimateFaces`, and `drawFail`
optionally names the index of the first canvas call that throws, with its
message. -/
structure TickInput where
  modelLoaded : Bool
  backend : String
  canvasW : ℚ
  canvasH : ℚ
  estimate : Except String (List Prediction)
  drawFail : Option (Nat × String)

/-- Observable outcome of one tick: whether `estimateFaces` was called, which
canvas calls actually executed, whether `requestAnimationFrame` was called to
schedule the next tick, and the error message assigned to `this.error` by the
`catch` block (if any). -/
structure TickOutput where
  calledInference : Bool
  executedOps : List DrawOp
  scheduled : Bool
  errorMsg : Option String
  deriving DecidableEq

/-- One tick of `detectFaces` (`App.vue` lines 82-131).  The skip branch
(model missing or backend not `webgl`) reschedules and returns.  Otherwise
`estimateFaces` runs; a throw there, or a throw from the n-th canvas call,
lands in the `catch` block, which sets the error message and does not
reschedule.  A fully successful tick executes every drawing call and
reschedules. -/
def detectFaces (inp : TickInput) : TickOutput :=
  if inp.modelLoaded = false ∨ inp.backend ≠ "webgl" then
    ⟨false, [], true, none⟩
  else
    match inp.estimate with
    | Except.error m => ⟨true, [], false, some ("Detection failed: " ++ m)⟩
    | Except.ok preds =>
      let ops := tickDrawOps inp.canvasW inp.canvasH preds
      match inp.drawFail with
      | some (n, m) =>
        if n < ops.length then
          ⟨true, ops.take n, false, some ("Detection failed: " ++ m)⟩
        else
          ⟨true, ops, true, none⟩
      | none => ⟨true, ops, true, none⟩

/-- Effect of a sequence of canvas calls on the visible surface, itself a list
of marks.  The only `clearRect` the app ever issues covers the whole canvas,
so it erases everything; every other call adds its mark. -/
def applySurface (s : List DrawOp) (ops : List DrawOp) : List DrawOp :=
  ops.foldl
    (fun acc op =>
      match op with
      | DrawOp.clearRect _ _ _ _ => []
      | o => acc ++ [o])
    s

/-- The configuration object passed to `createDetector` (`App.vue` lines
47-54). -/
structure DetectorConfig where
  runtime : String
  refineLandmarks : Bool
  maxFaces : Nat
  deriving DecidableEq

def detectorConfig : DetectorConfig :=
  ⟨"tfjs", true, 1⟩

/-- Outcomes of the effectful initialization steps in `mounted` (`App.vue`
lines 26-79): whether each `setBackend` call throws, what `tf.getBackend()`
reports after each attempt, whether `tf.ready`, `createDetector`, or
`getUserMedia` fail. -/
structure MountedEnv where
  setWebglThrows : Option String
  backendAfterWebgl : String
  setCpuThrows : Option String
  backendAfterCpu : String
  readyThrows : Option String
  createDetectorResult : Except String Unit
  getUserMediaResult : Except String Unit

/-- Observable outcome of `mounted`: backends attempted (in order), the error
message assigned by the `catch` block (if any), whether `this.model` was set,
and whether the `onloadedmetadata` callback that starts `detectFaces` was
installed. -/
structure MountedOutput where
  backendAttempts : List String
  errorMsg : Option String
  modelSet : Bool
  loopCallbackInstalled : Bool
  deriving DecidableEq

/-- The part of `mounted` after the backend is settled (`App.vue` lines
44-74): `tf.ready`, model load, webcam access, then installation of the
callback that starts the loop.  Any throw is caught by the surrounding
`catch`, which prefixes `Failed to initialize: `. -/
def mountedAfterBackend (env : MountedEnv) (attempts : List String) : MountedOutput :=
  match env.readyThrows with
  | some m => ⟨attempts, some ("Failed to initialize: " ++ m), false, false⟩
  | none =>
    match env.createDetectorResult with
    | Except.error m => ⟨attempts, some ("Failed to initialize: " ++ m), false, false⟩
    | Except.ok _ =>
      match env.getUserMediaResult with
      | Except.error m => ⟨attempts, some ("Failed to initialize: " ++ m), true, false⟩
      | Except.ok _ => ⟨attempts, none, true, true⟩

/-- `mounted` (`App.vue` lines 26-79).  It first calls
`setBackend('webgl')`; if the backend did not become `webgl` it calls
`setBackend('cpu')`, and if the backend is then not `cpu` it throws
`Failed to set any TensorFlow.js backend.`; afterwards the remaining setup
steps run.  Every throw lands in the single `catch`. -/
def mounted (env : MountedEnv) : MountedOutput :=
  match env.setWebglThrows with
  | some m => ⟨["webgl"], some ("Failed to initialize: " ++ m), false, false⟩
  | none =>
    if env.backendAfterWebgl = "webgl" then
      mountedAfterBackend env ["webgl"]
    else
      match env.setCpuThrows with
      | some m => ⟨["webgl", "cpu"], some ("Failed to initialize: " ++ m), false, false⟩
      | none =>
        if env.backendAfterCpu = "cpu" then
          mountedAfterBackend env ["webgl", "cpu"]
        else
          ⟨["webgl", "cpu"],
            some ("Failed to initialize: " ++ "Failed to set any TensorFlow.js backend."),
            false, false⟩

/-- The backend-negotiation phase of `mounted` completed without throwing and
left an active backend. -/
def backendSettled (env : MountedEnv) : Prop :=
  env.setWebglThrows = none ∧
    (env.backendAfterWebgl = "webgl" ∨
      (env.backendAfterWebgl ≠ "webgl" ∧ env.setCpuThrows = none ∧
        env.backendAfterCpu = "cpu"))

/-! ## Helper lemmas -/

lemma foldl_sum_fst (ps : List Point) (a : ℚ) :
    ps.foldl (fun s p => s + p.1) a = a + (ps.map Prod.fst).sum := by
  induction ps generalizing a with
  | nil => simp
  | cons q qs ih => simp [ih, add_assoc]

lemma foldl_sum_snd (ps : List Point) (a : ℚ) :
    ps.foldl (fun s p => s + p.2) a = a + (ps.map Prod.snd).sum := by
  induction ps generalizing a with
  | nil => simp
  | cons q qs ih => simp [ih, add_assoc]

lemma getCenter_nonempty (ps : List Point) (h : ps ≠ []) :
    getCenter (some ps) =
      ⟨(ps.map Prod.fst).sum / (ps.length : ℚ),
        (ps.map Prod.snd).sum / (ps.length : ℚ)⟩ := by
  have hlen : ¬ ps.length = 0 := by simpa using h
  simp [getCenter, hlen, foldl_sum_fst, foldl_sum_snd]

/-! ## Claims -/

/-- Claim C1: `getCenter` computes the arithmetic mean of a landmark group.
A missing (`none`) or empty group yields exactly `(0, 0)`; a singleton group
yields its point; `n` identical points yield that point; the square
`{(0,0), (10,0), (0,10), (10,10)}` yields `(5, 5)`; and every non-empty list
yields `(sum of x / N, sum of y / N)`. -/
theorem getCenter_mean_spec :
    getCenter none = ⟨0, 0⟩ ∧
    getCenter (some []) = ⟨0, 0⟩ ∧
    (∀ p : Point, getCenter (some [p]) = ⟨p.1, p.2⟩) ∧
    (∀ (n : ℕ) (p : Point), 0 < n →
      getCenter (some (List.replicate n p)) = ⟨p.1, p.2⟩) ∧
    getCenter (some [(0, 0), (10, 0), (0, 10), (10, 10)]) = ⟨5, 5⟩ ∧
    (∀ ps : List Point, ps ≠ [] →
      getCenter (some ps) =
        ⟨(ps.map Prod.fst).sum / (ps.length : ℚ),
          (ps.map Prod.snd).sum / (ps.length : ℚ)⟩) := by
  refine ⟨rfl, rfl, ?_, ?_, by norm_num [getCenter], getCenter_nonempty⟩
  · intro p
    simp [getCenter]
  · intro n p hn
    have hne : List.replicate n p ≠ [] :=
      List.ne_nil_of_length_pos (by simpa using hn)
    have hcast : (n : ℚ) ≠ 0 := by
      exact_mod_cast Nat.pos_iff_ne_zero.mp hn
    rw [getCenter_nonempty _ hne]
    simp [List.map_replicate, List.sum_replicate, nsmul_eq_mul,
      mul_div_assoc, div_self hcast, hcast]

/-- Closed-form witness for `getCenter_mean_spec`. -/
theorem getCenter_mean_spec_witness :
    getCenter (some (List.replicate 3 ((2 : ℚ), (4 : ℚ)))) = ⟨2, 4⟩ ∧
    getCenter (some [((1 : ℚ), (2 : ℚ)), (3, 6)]) = ⟨2, 4⟩ := by
  constructor
  · exact getCenter_mean_spec.2.2.2.1 3 (2, 4) (by decide)
  · rw [getCenter_mean_spec.2.2.2.2.2 [((1 : ℚ), (2 : ℚ)), (3, 6)] (by decide)]
    norm_num

/-- Claim C3: on a tick where the backend is not `webgl`, the tick calls no
inference, executes no drawing calls, and still schedules a further tick. -/
theorem tick_backend_gate (inp : TickInput) (hb : inp.backend ≠ "webgl") :
    (detectFaces inp).calledInference = false ∧
    (detectFaces inp).executedOps = [] ∧
    (detectFaces inp).scheduled = true := by
  simp [detectFaces, hb]

/-- Closed-form witness for `tick_backend_gate`. -/
theorem tick_backend_gate_witness :
    (detectFaces ⟨true, "cpu", 640, 480, Except.ok [], none⟩).calledInference = false ∧
    (detectFaces ⟨true, "cpu", 640, 480, Except.ok [], none⟩).executedOps = [] ∧
    (detectFaces ⟨true, "cpu", 640, 480, Except.ok [], none⟩).scheduled = true :=
  tick_backend_gate ⟨true, "cpu", 640, 480, Except.ok [], none⟩ (by decide)

/-- Claim C9: a tick never invokes inference while the model is not yet
loaded: when the model reference is null the tick takes the skip branch (no
`estimateFaces` call, no drawing) and schedules a further tick. -/
theorem tick_model_gate (inp : TickInput) (hm : inp.modelLoaded = false) :
    (detectFaces inp).calledInference = false ∧
    (detectFaces inp).executedOps = [] ∧
    (detectFaces inp).scheduled = true := by
  simp [detectFaces, hm]

/-- Closed-form witness for `tick_model_gate`. -/
theorem tick_model_gate_witness :
    (detectFaces ⟨false, "webgl", 640, 480, Except.ok [], none⟩).calledInference = false ∧
    (detectFaces ⟨false, "webgl", 640, 480, Except.ok [], none⟩).executedOps = [] ∧
    (detectFaces ⟨false, "webgl", 640, 480, Except.ok [], none⟩).scheduled = true :=
  tick_model_gate ⟨false, "webgl", 640, 480, Except.ok [], none⟩ rfl

/-- Claim C2: every error thrown during a tick — by the inference call or by
one of the rendering calls — is caught, sets the displayed message to
`Detection failed: ` concatenated with the original message, and does not
schedule another tick, so the annotation loop permanently halts. -/
theorem tick_error_halts (inp : TickInput) (m : String)
    (hm : inp.modelLoaded = true) (hb : inp.backend = "webgl")
    (herr : inp.estimate = Except.error m ∨
      ∃ preds n, inp.estimate = Except.ok preds ∧ inp.drawFail = some (n, m) ∧
        n < (tickDrawOps inp.canvasW inp.canvasH preds).length) :
    (detectFaces inp).errorMsg = some ("Detection failed: " ++ m) ∧
    (detectFaces inp).scheduled = false := by
  rcases herr with he | ⟨preds, n, he, hd, hlt⟩
  · simp [detectFaces, hm, hb, he]
  · simp [detectFaces, hm, hb, he, hd, hlt]

/-- Closed-form witness for `tick_error_halts`. -/
theorem tick_error_halts_witness :
    (detectFaces ⟨true, "webgl", 640, 480, Except.error "boom", none⟩).errorMsg =
      some ("Detection failed: " ++ "boom") ∧
    (detectFaces ⟨true, "webgl", 640, 480, Except.error "boom", none⟩).scheduled = false :=
  tick_error_halts ⟨true, "webgl", 640, 480, Except.error "boom", none⟩ "boom"
    rfl rfl (Or.inl rfl)

/-- Claim C4: a tick that reaches the rendering step clears the whole drawing
surface before any drawing call, and does so even when inference returned zero
results, so no marks from a previous tick survive an empty result. -/
theorem tick_clears_first (inp : TickInput) (preds : List Prediction)
    (s : List DrawOp)
    (hm : inp.modelLoaded = true) (hb : inp.backend = "webgl")
    (he : inp.estimate = Except.ok preds) (hd : inp.drawFail = none) :
    (detectFaces inp).executedOps.head? =
      some (DrawOp.clearRect 0 0 inp.canvasW inp.canvasH) ∧
    (preds = [] → applySurface s (detectFaces inp).executedOps = []) := by
  constructor
  · simp [detectFaces, hm, hb, he, hd, tickDrawOps]
  · intro hnil
    subst hnil
    simp [detectFaces, hm, hb, he, hd, tickDrawOps, processedPreds, applySurface]

/-- Closed-form witness for `tick_clears_first`. -/
theorem tick_clears_first_witness :
    (detectFaces ⟨true, "webgl", 640, 480, Except.ok [], none⟩).executedOps.head? =
      some (DrawOp.clearRect 0 0 640 480) ∧
    applySurface [DrawOp.fill]
      (detectFaces ⟨true, "webgl", 640, 480, Except.ok [], none⟩).executedOps = [] :=
  ⟨(tick_clears_first ⟨true, "webgl", 640, 480, Except.ok [], none⟩ [] [DrawOp.fill]
      rfl rfl rfl rfl).1,
    (tick_clears_first ⟨true, "webgl", 640, 480, Except.ok [], none⟩ [] [DrawOp.fill]
      rfl rfl rfl rfl).2 rfl⟩

/-- Claim C10: on the skip branch of a tick (model not loaded or backend not
`webgl`) the tick issues no canvas call at all — in particular no clear — so
the surface, and with it any previously drawn marks, is left unchanged, and a
further tick is still scheduled. -/
theorem tick_skip_preserves_surface (inp : TickInput) (s : List DrawOp)
    (h : inp.modelLoaded = false ∨ inp.backend ≠ "webgl") :
    (detectFaces inp).executedOps = [] ∧
    applySurface s (detectFaces inp).executedOps = s ∧
    (detectFaces inp).scheduled = true := by
  have hskip : (detectFaces inp).executedOps = [] ∧ (detectFaces inp).scheduled = true := by
    rcases h with hm | hb
    · simp [detectFaces, hm]
    · simp [detectFaces, hb]
  exact ⟨hskip.1, by simp [hskip.1, applySurface], hskip.2⟩

/-- Closed-form witness for `tick_skip_preserves_surface`. -/
theorem tick_skip_preserves_surface_witness :
    (detectFaces ⟨true, "cpu", 640, 480, Except.ok [], some (0, "late")⟩).executedOps = [] ∧
    applySurface [DrawOp.beginPath]
      (detectFaces ⟨true, "cpu", 640, 480, Except.ok [], some (0, "late")⟩).executedOps =
      [DrawOp.beginPath] ∧
    (detectFaces ⟨true, "cpu", 640, 480, Except.ok [], some (0, "late")⟩).scheduled = true :=
  tick_skip_preserves_surface ⟨true, "cpu", 640, 480, Except.ok [], some (0, "late")⟩
    [DrawOp.beginPath] (Or.inr (by decide))

/-- Claim C6: for every rendered result, the left-eye and right-eye labels are
drawn at the group centroid's x and at `centroid.y - 20`, the nose label at
the centroid's x and `centroid.y + 10`, and the mouth label at the centroid's
x and `centroid.y + 20`. -/
theorem label_offsets (pred : Prediction) :
    DrawOp.fillText "Left Eye" (getCenter pred.annots.leftEyeUpper0).x
        ((getCenter pred.annots.leftEyeUpper0).y - 20) ∈ renderPrediction pred ∧
    DrawOp.fillText "Right Eye" (getCenter pred.annots.rightEyeUpper0).x
        ((getCenter pred.annots.rightEyeUpper0).y - 20) ∈ renderPrediction pred ∧
    DrawOp.fillText "Nose" (getCenter pred.annots.noseBottom).x
        ((getCenter pred.annots.noseBottom).y + 10) ∈ renderPrediction pred ∧
    DrawOp.fillText "Mouth" (getCenter pred.annots.lipsUpperOuter).x
        ((getCenter pred.annots.lipsUpperOuter).y + 20) ∈ renderPrediction pred := by
  refine ⟨?_, ?_, ?_, ?_⟩ <;> simp [renderPrediction, drawLabel]

/-- Closed-form witness for `label_offsets`: a prediction whose four groups
are the singletons `{(10, 30)}`, `{(50, 30)}`, `{(30, 50)}`, `{(30, 60)}`. -/
theorem label_offsets_witness :
    DrawOp.fillText "Left Eye" 10 (30 - 20) ∈
      renderPrediction ⟨[], ⟨some [(10, 30)], some [(50, 30)],
        some [(30, 50)], some [(30, 60)]⟩⟩ ∧
    DrawOp.fillText "Nose" 30 (50 + 10) ∈
      renderPrediction ⟨[], ⟨some [(10, 30)], some [(50, 30)],
        some [(30, 50)], some [(30, 60)]⟩⟩ := by
  have h := label_offsets ⟨[], ⟨some [(10, 30)], some [(50, 30)],
    some [(30, 50)], some [(30, 60)]⟩⟩
  have hl : getCenter (some [((10 : ℚ), (30 : ℚ))]) = ⟨10, 30⟩ := by
    simp [getCenter]
  have hn : getCenter (some [((30 : ℚ), (50 : ℚ))]) = ⟨30, 50⟩ := by
    simp [getCenter]
  exact ⟨by simpa [hl] using h.1, by simpa [hn] using h.2.2.1⟩

/-- Claim C8: the model is configured with a maximum of one face
(`maxFaces: 1`), and for every result sequence whose length respects that
configuration the renderer processes at most one result. -/
theorem at_most_one_face (preds : List Prediction)
    (h : preds.length ≤ detectorConfig.maxFaces) :
    detectorConfig.maxFaces = 1 ∧ (processedPreds preds).length ≤ 1 := by
  refine ⟨rfl, ?_⟩
  have h1 : preds.length ≤ 1 := h
  by_cases hp : preds.length > 0
  · simpa [processedPreds, hp] using h1
  · simp [processedPreds, hp]

/-- Closed-form witness for `at_most_one_face`. -/
theorem at_most_one_face_witness :
    detectorConfig.maxFaces = 1 ∧
    (processedPreds [⟨[], ⟨none, none, none, none⟩⟩]).length ≤ 1 :=
  at_most_one_face [⟨[], ⟨none, none, none, none⟩⟩] (by decide)

lemma mountedAfterBackend_attempts (env : MountedEnv) (a : List String) :
    (mountedAfterBackend env a).backendAttempts = a := by
  cases hr : env.readyThrows with
  | some m => simp [mountedAfterBackend, hr]
  | none =>
    cases hc : env.createDetectorResult with
    | error m => simp [mountedAfterBackend, hr, hc]
    | ok u =>
      cases hg : env.getUserMediaResult with
      | error m => simp [mountedAfterBackend, hr, hc, hg]
      | ok v => simp [mountedAfterBackend, hr, hc, hg]

lemma mounted_settled (env : MountedEnv) (h : backendSettled env) :
    mounted env = mountedAfterBackend env ["webgl"] ∨
    mounted env = mountedAfterBackend env ["webgl", "cpu"] := by
  obtain ⟨h1, h2 | ⟨h2, h3, h4⟩⟩ := h
  · left
    simp [mounted, h1, h2]
  · right
    simp [mounted, h1, h2, h3, h4]

lemma mountedAfterBackend_ready_err (env : MountedEnv) (a : List String) (m : String)
    (hr : env.readyThrows = some m) :
    (mountedAfterBackend env a).errorMsg = some ("Failed to initialize: " ++ m) ∧
    (mountedAfterBackend env a).loopCallbackInstalled = false := by
  simp [mountedAfterBackend, hr]

lemma mountedAfterBackend_detector_err (env : MountedEnv) (a : List String) (m : String)
    (hr : env.readyThrows = none) (hc : env.createDetectorResult = Except.error m) :
    (mountedAfterBackend env a).errorMsg = some ("Failed to initialize: " ++ m) ∧
    (mountedAfterBackend env a).loopCallbackInstalled = false := by
  simp [mountedAfterBackend, hr, hc]

lemma mountedAfterBackend_camera_err (env : MountedEnv) (a : List String) (m : String)
    (hr : env.readyThrows = none) (hc : env.createDetectorResult = Except.ok ())
    (hg : env.getUserMediaResult = Except.error m) :
    (mountedAfterBackend env a).errorMsg = some ("Failed to initialize: " ++ m) ∧
    (mountedAfterBackend env a).loopCallbackInstalled = false := by
  simp [mountedAfterBackend, hr, hc, hg]

/-- Claim C5: every error thrown during initialization — either `setBackend`
call, the `Failed to set any TensorFlow.js backend.` throw, `tf.ready`, model
load, or camera access — is caught once, sets the displayed message to
`Failed to initialize: ` concatenated with the original message, and leaves
the loop-starting callback uninstalled, so inference and rendering are never
invoked. -/
theorem mounted_init_failure :
    (∀ (env : MountedEnv) (m : String), env.setWebglThrows = some m →
      (mounted env).errorMsg = some ("Failed to initialize: " ++ m) ∧
      (mounted env).loopCallbackInstalled = false) ∧
    (∀ (env : MountedEnv) (m : String), env.setWebglThrows = none →
      env.backendAfterWebgl ≠ "webgl" → env.setCpuThrows = some m →
      (mounted env).errorMsg = some ("Failed to initialize: " ++ m) ∧
      (mounted env).loopCallbackInstalled = false) ∧
    (∀ env : MountedEnv, env.setWebglThrows = none →
      env.backendAfterWebgl ≠ "webgl" → env.setCpuThrows = none →
      env.backendAfterCpu ≠ "cpu" →
      (mounted env).errorMsg =
        some ("Failed to initialize: " ++ "Failed to set any TensorFlow.js backend.") ∧
      (mounted env).loopCallbackInstalled = false) ∧
    (∀ (env : MountedEnv) (m : String), backendSettled env →
      env.readyThrows = some m →
      (mounted env).errorMsg = some ("Failed to initialize: " ++ m) ∧
      (mounted env).loopCallbackInstalled = false) ∧
    (∀ (env : MountedEnv) (m : String), backendSettled env →
      env.readyThrows = none → env.createDetectorResult = Except.error m →
      (mounted env).errorMsg = some ("Failed to initialize: " ++ m) ∧
      (mounted env).loopCallbackInstalled = false) ∧
    (∀ (env : MountedEnv) (m : String), backendSettled env →
      env.readyThrows = none → env.createDetectorResult = Except.ok () →
      env.getUserMediaResult = Except.error m →
      (mounted env).errorMsg = some ("Failed to initialize: " ++ m) ∧
      (mounted env).loopCallbackInstalled = false) := by
  refine ⟨?_, ?_, ?_, ?_, ?_, ?_⟩
  · intro env m h1
    simp [mounted, h1]
  · intro env m h1 h2 h3
    simp [mounted, h1, h2, h3]
  · intro env h1 h2 h3 h4
    simp [mounted, h1, h2, h3, h4]
  · intro env m hs hr
    rcases mounted_settled env hs with he | he <;>
      simpa [he] using mountedAfterBackend_ready_err env _ m hr
  · intro env m hs hr hc
    rcases mounted_settled env hs with he | he <;>
      simpa [he] using mountedAfterBackend_detector_err env _ m hr hc
  · intro env m hs hr hc hg
    rcases mounted_settled env hs with he | he <;>
      simpa [he] using mountedAfterBackend_camera_err env _ m hr hc hg

/-- Closed-form witness for `mounted_init_failure`: a camera-access denial. -/
theorem mounted_init_failure_witness :
    (mounted ⟨none, "webgl", none, "cpu", none, Except.ok (),
        Except.error "Permission denied"⟩).errorMsg =
      some ("Failed to initialize: " ++ "Permission denied") ∧
    (mounted ⟨none, "webgl", none, "cpu", none, Except.ok (),
        Except.error "Permission denied"⟩).loopCallbackInstalled = false :=
  mounted_init_failure.2.2.2.2.2
    ⟨none, "webgl", none, "cpu", none, Except.ok (), Except.error "Permission denied"⟩
    "Permission denied" ⟨rfl, Or.inl rfl⟩ rfl rfl rfl

/-- Claim C7: initialization first attempts the `webgl` backend; if the
backend did not become `webgl` it falls back to `cpu`; and if the backend is
then not `cpu` either, initialization fails with the backend-unavailable
error (displayed as `Failed to initialize: Failed to set any TensorFlow.js
backend.`) and stops, with no model set and the loop-starting callback never
installed. -/
theorem mounted_backend_negotiation :
    (∀ env : MountedEnv, (mounted env).backendAttempts.head? = some "webgl") ∧
    (∀ env : MountedEnv, env.setWebglThrows = none →
      env.backendAfterWebgl ≠ "webgl" →
      (mounted env).backendAttempts = ["webgl", "cpu"]) ∧
    (∀ env : MountedEnv, env.setWebglThrows = none →
      env.backendAfterWebgl ≠ "webgl" → env.setCpuThrows = none →
      env.backendAfterCpu ≠ "cpu" →
      (mounted env).errorMsg =
        some ("Failed to initialize: " ++ "Failed to set any TensorFlow.js backend.") ∧
      (mounted env).modelSet = false ∧
      (mounted env).loopCallbackInstalled = false) := by
  refine ⟨?_, ?_, ?_⟩
  · intro env
    cases h1 : env.setWebglThrows with
    | some m => simp [mounted, h1]
    | none =>
      by_cases h2 : env.backendAfterWebgl = "webgl"
      · simp [mounted, h1, h2, mountedAfterBackend_attempts]
      · cases h3 : env.setCpuThrows with
        | some m => simp [mounted, h1, h2, h3]
        | none =>
          by_cases h4 : env.backendAfterCpu = "cpu"
          · simp [mounted, h1, h2, h3, h4, mountedAfterBackend_attempts]
          · simp [mounted, h1, h2, h3, h4]
  · intro env h1 h2
    cases h3 : env.setCpuThrows with
    | some m => simp [mounted, h1, h2, h3]
    | none =>
      by_cases h4 : env.backendAfterCpu = "cpu"
      · simp [mounted, h1, h2, h3, h4, mountedAfterBackend_attempts]
      · simp [mounted, h1, h2, h3, h4]
  · intro env h1 h2 h3 h4
    simp [mounted, h1, h2, h3, h4]

/-- Closed-form witness for `mounted_backend_negotiation`: neither backend
can be activated. -/
theorem mounted_backend_negotiation_witness :
    (mounted ⟨none, "", none, "", none, Except.ok (),
        Except.ok ()⟩).backendAttempts = ["webgl", "cpu"] ∧
    (mounted ⟨none, "", none, "", none, Except.ok (), Except.ok ()⟩).errorMsg =
      some ("Failed to initialize: " ++ "Failed to set any TensorFlow.js backend.") ∧
    (mounted ⟨none, "", none, "", none, Except.ok (),
        Except.ok ()⟩).loopCallbackInstalled = false :=
  ⟨mounted_backend_negotiation.2.1
      ⟨none, "", none, "", none, Except.ok (), Except.ok ()⟩ rfl (by decide),
    (mounted_backend_negotiation.2.2
      ⟨none, "", none, "", none, Except.ok (), Except.ok ()⟩ rfl (by decide)
      rfl (by decide)).1,
    (mounted_backend_negotiation.2.2
      ⟨none, "", none, "", none, Except.ok (), Except.ok ()⟩ rfl (by decide)
      rfl (by decide)).2.2⟩

end FaceApp
